import Mathlib

/-!
Shallow embedding of the route-comparison engine of `src/lib/route-analysis.ts`
(with the data model of `src/types/lifi.ts`).

Modelling conventions:
* JavaScript numbers are modelled as rationals (`ℚ`); chain ids as `Int`.
* Numeric strings that the code feeds through `parseFloat(x || "0")` are
  modelled as `Option ℚ` holding the parsed value; the idiom becomes
  `Option.getD 0`.  Raw big-integer amount strings that are never parsed
  stay `String`.
* Optional fields (`?:` in TypeScript) become `Option`.
* `Array.prototype.sort(cmp)` with a numeric-key comparator is, per the
  ECMAScript specification, a stable sort; it is modelled by the stable
  `insertionSort` below with `le a b := key a ≤ key b` (ascending) or
  `le a b := key b ≤ key a` (descending).
* Only the fields of each interface that `route-analysis.ts` actually reads
  are carried; omitted fields are presentational and never influence the
  functions under study.
-/

namespace LifiLens

/-- Token descriptor (`TokenInfo` in `src/types/lifi.ts`); only the fields read
by the route-analysis code are carried. -/
structure TokenInfo where
  address : String
  chainId : Int
  symbol : String
  decimals : Nat
  deriving DecidableEq, Repr

/-- Fee cost of a step (`FeeCost`): `amountUSD` is the parsed value of the
optional numeric string. -/
structure FeeCost where
  amountUSD : Option ℚ
  deriving DecidableEq, Repr

/-- Gas cost of a step (`GasCost`): `amountUSD` is the parsed value of the
optional numeric string. -/
structure GasCost where
  amountUSD : Option ℚ
  deriving DecidableEq, Repr

/-- Step action (`StepAction`); route-analysis only reads `slippage`. -/
structure StepAction where
  slippage : Option ℚ
  deriving DecidableEq, Repr

/-- Step estimate (`StepEstimate`). -/
structure StepEstimate where
  executionDuration : ℚ
  feeCosts : Option (List FeeCost)
  gasCosts : Option (List GasCost)
  deriving DecidableEq, Repr

/-- One leg of a route (`RouteStep`): `type` is one of the strings
`"lifi" | "cross" | "swap"`. -/
structure RouteStep where
  id : String
  type : String
  tool : String
  action : StepAction
  estimate : StepEstimate
  deriving DecidableEq, Repr

/-- A candidate route (`Route`): `fromAmountUSD`/`toAmountUSD` are the parsed
values of the USD amount strings (missing field ↦ `none`). -/
structure Route where
  id : String
  fromChainId : Int
  toChainId : Int
  fromToken : TokenInfo
  toToken : TokenInfo
  fromAmountUSD : Option ℚ
  toAmountUSD : Option ℚ
  steps : List RouteStep
  deriving DecidableEq, Repr

/-- Derived per-route metrics (`RouteMetrics`). -/
structure RouteMetrics where
  totalFeesUSD : ℚ
  totalGasUSD : ℚ
  estimatedTime : ℚ
  priceImpact : ℚ
  complexityScore : ℚ
  gasEfficiency : ℚ
  liquidityScore : ℚ
  bridgeReliability : ℚ
  slippageTolerance : ℚ
  deriving DecidableEq, Repr

/-- Recommendation categories (`RouteRecommendationType`). -/
inductive RouteRecommendationType where
  | OPTIMAL
  | FASTEST
  | CHEAPEST
  | SAFEST
  | ALTERNATIVE
  deriving DecidableEq, Repr

/-- Full recommendation object (`RouteRecommendation`).  Only a slippage
adjustment is ever produced by the code, so `adjustments` is modelled as the
optional suggested slippage value. -/
structure RouteRecommendation where
  type : RouteRecommendationType
  reasons : List String
  pros : List String
  cons : List String
  adjustments : Option ℚ
  deriving DecidableEq, Repr

/-- A route bundled with its analysis (`AlternativeRoute`);
`riskLevel` is one of the strings `"LOW" | "MEDIUM" | "HIGH"`. -/
structure AlternativeRoute where
  route : Route
  metrics : RouteMetrics
  recommendation : RouteRecommendationType
  successProbability : ℚ
  riskLevel : String
  pros : List String
  cons : List String
  deriving DecidableEq, Repr

/-- The partial original route rebuilt by `extractOriginalRoute`
(`Partial<Route>` in the source): exactly the fields that function assigns. -/
structure PartialRoute where
  id : String
  fromChainId : Int
  fromAmount : String
  fromAmountUSD : String
  fromToken : TokenInfo
  toChainId : Int
  toAmount : String
  toAmountUSD : String
  toAmountMin : String
  toToken : TokenInfo
  gasCostUSD : Option String
  steps : List RouteStep
  fromAddress : Option String
  toAddress : Option String
  deriving DecidableEq, Repr

/-- Top-level comparison result (`RouteComparison`). -/
structure RouteComparison where
  originalRoute : Option PartialRoute
  alternativeRoutes : List AlternativeRoute
  failureReasons : List String
  recommendations : List RouteRecommendation
  deriving DecidableEq, Repr

/-- Bridge/exchange preference lists (`AllowDenyPrefer`). -/
structure AllowDenyPrefer where
  allow : Option (List String) := none
  deny : Option (List String) := none
  prefer : Option (List String) := none
  deriving DecidableEq, Repr

/-- Request options (`RouteOptions`); only the fields route-analysis writes. -/
structure RouteOptions where
  order : Option String := none
  slippage : Option ℚ := none
  allowSwitchChain : Option Bool := none
  bridges : Option AllowDenyPrefer := none
  exchanges : Option AllowDenyPrefer := none
  deriving DecidableEq, Repr

/-- A (possibly partial) routes request (`RoutesRequest` /
`Partial<RoutesRequest>`): every field optional, as at runtime. -/
structure RoutesRequest where
  fromChainId : Option Int := none
  toChainId : Option Int := none
  fromTokenAddress : Option String := none
  toTokenAddress : Option String := none
  fromAmount : Option String := none
  fromAddress : Option String := none
  toAddress : Option String := none
  options : Option RouteOptions := none
  deriving DecidableEq, Repr

/-- Included step hint of a transaction leg (`IncludedStep`); route-analysis
only reads `toToken`. -/
structure IncludedStep where
  tool : String
  toToken : Option TokenInfo
  deriving DecidableEq, Repr

/-- One leg of a scanned transaction (`TransactionInfo`); the USD amount
strings are copied verbatim (never parsed) by the analyzed code, so they stay
`Option String`. -/
structure TransactionInfo where
  amount : Option String
  token : Option TokenInfo
  chainId : Option Int
  gasAmountUSD : Option String
  amountUSD : Option String
  includedSteps : Option (List IncludedStep)
  deriving DecidableEq, Repr

/-- Status payload of a scanned transaction (`StatusResponse`); the substatus
enum is carried as its string value. -/
structure StatusResponse where
  sending : TransactionInfo
  receiving : Option TransactionInfo
  substatus : Option String
  substatusMessage : Option String
  fromAddress : Option String
  toAddress : Option String
  deriving DecidableEq, Repr

/-! ## Metrics calculator (`calculateRouteMetrics` and its helpers) -/

/-- Sum of a step's named fee costs in USD:
`step.estimate.feeCosts?.reduce((t, fee) => t + parseFloat(fee.amountUSD || "0"), 0) || 0`. -/
def stepFeeSum (step : RouteStep) : ℚ :=
  (step.estimate.feeCosts.getD []).foldl (fun acc fee => acc + fee.amountUSD.getD 0) 0

/-- Sum of a step's gas costs in USD:
`step.estimate.gasCosts?.reduce((t, gas) => t + parseFloat(gas.amountUSD || "0"), 0) || 0`. -/
def stepGasSum (step : RouteStep) : ℚ :=
  (step.estimate.gasCosts.getD []).foldl (fun acc gas => acc + gas.amountUSD.getD 0) 0

/-- Liquidity-depth heuristic (`estimateLiquidityDepth`). -/
def estimateLiquidityDepth (route : Route) : String :=
  let highLiquidityTools := ["1inch", "paraswap", "0x", "uniswap", "sushiswap"]
  let mediumLiquidityTools := ["dodo", "kyber", "balancer"]
  let hasHighLiquidity := route.steps.any fun step => highLiquidityTools.contains step.tool.toLower
  let hasMediumLiquidity := route.steps.any fun step => mediumLiquidityTools.contains step.tool.toLower
  if hasHighLiquidity then "HIGH"
  else if hasMediumLiquidity then "MEDIUM"
  else "LOW"

/-- Fixed per-tool reliability table of `calculateBridgeReliability`
(`reliabilityScores[tool] || 5`, every table entry being non-zero). -/
def reliabilityScore (tool : String) : ℚ :=
  (([("hop", 9), ("across", 17/2), ("cbridge", 8), ("arbitrum", 19/2),
     ("optimism", 19/2), ("polygon", 9), ("avalanche", 17/2), ("gnosis", 15/2),
     ("relay", 7), ("symbiosis", 13/2), ("thorswap", 6), ("squid", 7),
     ("allbridge", 6), ("mayan", 6), ("debridge", 13/2), ("chainflip", 11/2)] :
    List (String × ℚ)).lookup tool).getD 5

/-- Bridge-reliability heuristic (`calculateBridgeReliability`). -/
def calculateBridgeReliability (route : Route) : ℚ :=
  let bridgeSteps := route.steps.filter fun step => step.type == "cross"
  if bridgeSteps.isEmpty then 9
  else (bridgeSteps.foldl (fun sum step => sum + reliabilityScore step.tool.toLower) 0) /
    (bridgeSteps.length : ℚ)

/-- Slippage extraction (`extractSlippageTolerance`): the first step whose
`action.slippage` is truthy, times 100. -/
def extractSlippageTolerance (route : Route) : Option ℚ :=
  match route.steps.filter (fun step => step.action.slippage.getD 0 != 0) with
  | [] => none
  | step :: _ => some ((step.action.slippage.getD 0) * 100)

/-- Metrics derivation (`calculateRouteMetrics`).  All arithmetic is exact
over `ℚ`; `x > 0` tests and `|·|` mirror the source. -/
def calculateRouteMetrics (route : Route) : RouteMetrics :=
  let totalFeesUSD := route.steps.foldl (fun total step => total + stepFeeSum step + stepGasSum step) 0
  let executionTimeMinutes := route.steps.foldl (fun total step => total + step.estimate.executionDuration / 60) 0
  let fromAmountUSD := route.fromAmountUSD.getD 0
  let toAmountUSD := route.toAmountUSD.getD 0
  let priceImpactPercent :=
    if 0 < fromAmountUSD then |(fromAmountUSD - toAmountUSD - totalFeesUSD) / fromAmountUSD| * 100
    else 0
  let complexityScore := (route.steps.length : ℚ) +
    (if route.steps.any (fun s => s.type == "cross") then 2 else 0) +
    ((route.steps.filter fun s => s.type == "swap").length : ℚ) * (1/2)
  let totalGasUSD := route.steps.foldl (fun total step => total + stepGasSum step) 0
  let gasEfficiency := if 0 < fromAmountUSD then totalGasUSD / fromAmountUSD * 100 else 100
  let liquidityDepth := estimateLiquidityDepth route
  let bridgeReliability := calculateBridgeReliability route
  let slippageTolerance :=
    match extractSlippageTolerance route with
    | none => 2
    | some v => if v = 0 then 2 else v
  { totalFeesUSD
    totalGasUSD
    estimatedTime := executionTimeMinutes * 60
    priceImpact := priceImpactPercent / 100
    complexityScore
    gasEfficiency
    liquidityScore := if liquidityDepth == "HIGH" then 9 else if liquidityDepth == "MEDIUM" then 6 else 3
    bridgeReliability
    slippageTolerance }

/-! ## Stable sorting (model of `Array.prototype.sort` with a numeric comparator) -/

/-- Insert `x` into `l` before the first element `y` with `le x y`.  Used to
model the stable sort mandated for `Array.prototype.sort`. -/
def orderedInsert (le : α → α → Bool) (x : α) : List α → List α
  | [] => [x]
  | y :: ys => if le x y then x :: y :: ys else y :: orderedInsert le x ys

/-- Stable sort by `le`: extensionally the unique stable sort, hence a faithful
model of the ECMAScript `sort` with comparator `(a, b) => key(a) - key(b)`
(take `le a b := key a ≤ key b`) or `(a, b) => key(b) - key(a)`
(take `le a b := key b ≤ key a`). -/
def insertionSort (le : α → α → Bool) : List α → List α
  | [] => []
  | x :: xs => orderedInsert le x (insertionSort le xs)

/-- First element of `l` achieving the `le`-minimum (ties resolved toward the
earlier element); this is the head of any stable ascending sort of `l`. -/
def firstMinWith (le : α → α → Bool) : List α → Option α
  | [] => none
  | x :: xs =>
    match firstMinWith le xs with
    | none => some x
    | some m => if le x m then some x else some m

/-! ## Recommendation synthesizer (`generateRouteRecommendation`) -/

/-- Ascending-fee comparator of the `byFees` sort. -/
def feeLe (a b : Route) : Bool :=
  (calculateRouteMetrics a).totalFeesUSD ≤ (calculateRouteMetrics b).totalFeesUSD

/-- Ascending-time comparator of the `byTime` sort. -/
def timeLe (a b : Route) : Bool :=
  (calculateRouteMetrics a).estimatedTime ≤ (calculateRouteMetrics b).estimatedTime

/-- Descending-reliability comparator of the `byReliability` sort. -/
def relGe (a b : Route) : Bool :=
  (calculateRouteMetrics b).bridgeReliability ≤ (calculateRouteMetrics a).bridgeReliability

/-- Weighted composite score (`calculateOptimalScore`);
the weights 0.3 / 0.2 / 0.3 / 0.2 are exact rationals. -/
def calculateOptimalScore (metrics : RouteMetrics) : ℚ :=
  let feeScore := max 0 (100 - metrics.totalFeesUSD)
  let timeScore := max 0 (100 - metrics.estimatedTime / 60 * 2)
  let reliabilityScore := metrics.bridgeReliability * 10
  let complexityScore := max 0 (100 - metrics.complexityScore * 10)
  feeScore * (3/10) + timeScore * (2/10) + reliabilityScore * (3/10) + complexityScore * (2/10)

/-- Recommendation synthesis (`generateRouteRecommendation`).
`byX[0]?.id === route.id` becomes `(…).head?.any (·.id == route.id)`
(`undefined === id` is `false`). -/
def generateRouteRecommendation (route : Route) (metrics : RouteMetrics)
    (allRoutes : List Route) : RouteRecommendation :=
  let byFees := insertionSort feeLe allRoutes
  let byTime := insertionSort timeLe allRoutes
  let byReliability := insertionSort relGe allRoutes
  let typeReasons : RouteRecommendationType × List String :=
    if byFees.head?.any (fun r => r.id == route.id) then
      (.CHEAPEST, ["Lowest total fees among all options"])
    else if byTime.head?.any (fun r => r.id == route.id) then
      (.FASTEST, ["Shortest estimated execution time"])
    else if byReliability.head?.any (fun r => r.id == route.id) then
      (.SAFEST, ["Uses most reliable bridges and exchanges"])
    else (.ALTERNATIVE, [])
  let optimalScore := calculateOptimalScore metrics
  let isOptimal := allRoutes.all fun r =>
    decide (calculateOptimalScore (calculateRouteMetrics r) ≤ optimalScore) || r.id == route.id
  let typeReasons :=
    if isOptimal && typeReasons.1 == .ALTERNATIVE then
      (RouteRecommendationType.OPTIMAL, typeReasons.2 ++ ["Best balance of cost, time, and reliability"])
    else typeReasons
  let pros :=
    (if metrics.totalFeesUSD < 10 then ["Low transaction fees"] else []) ++
    (if metrics.estimatedTime < 300 then ["Fast execution time"] else []) ++
    (if 8 < metrics.bridgeReliability then ["Uses reliable, battle-tested bridges"] else []) ++
    (if metrics.complexityScore < 3 then ["Simple, straightforward route"] else []) ++
    (if metrics.gasEfficiency < 2 then ["Gas efficient"] else []) ++
    (if 7 < metrics.liquidityScore then ["High liquidity depth"] else [])
  let cons :=
    (if 50 < metrics.totalFeesUSD then ["Higher transaction fees"] else []) ++
    (if 900 < metrics.estimatedTime then ["Longer execution time"] else []) ++
    (if metrics.bridgeReliability < 6 then ["Uses less proven bridges"] else []) ++
    (if 5 < metrics.complexityScore then ["Complex multi-step route"] else []) ++
    (if 5 < metrics.gasEfficiency then ["Higher gas costs"] else []) ++
    (if 1/100 < metrics.priceImpact then ["Higher price impact"] else [])
  let adjustments : Option ℚ :=
    if metrics.slippageTolerance < 2 ∧ 1/200 < metrics.priceImpact then some 3 else none
  { type := typeReasons.1, reasons := typeReasons.2, pros, cons, adjustments }

/-! ## Heuristic estimators -/

/-- Fixed allow-list of `isWellKnownBridge`. -/
def isWellKnownBridge (tool : String) : Bool :=
  (["hop", "across", "cbridge", "arbitrum", "optimism", "polygon",
    "avalanche", "gnosis", "relay"] : List String).contains tool.toLower

/-- Success-probability heuristic (`calculateSuccessProbability`). -/
def calculateSuccessProbability (route : Route) (metrics : RouteMetrics) : ℚ :=
  let probability : ℚ := 95
  let probability := probability - metrics.complexityScore * 2
  let probability := probability - (10 - metrics.bridgeReliability) * 3
  let probability :=
    if metrics.liquidityScore < 4 then probability - 15
    else if metrics.liquidityScore < 7 then probability - 5
    else probability
  let probability :=
    if 1/50 < metrics.priceImpact then probability - 10
    else if 1/100 < metrics.priceImpact then probability - 5
    else probability
  let probability :=
    if 10 < metrics.gasEfficiency then probability - 10
    else if 5 < metrics.gasEfficiency then probability - 5
    else probability
  let hasUnknownBridges := route.steps.any fun step => !isWellKnownBridge step.tool
  let probability := if hasUnknownBridges then probability - 10 else probability
  max 50 (min 98 probability)

/-- Risk-level classifier (`calculateRiskLevel`). -/
def calculateRiskLevel (metrics : RouteMetrics) (successProbability : ℚ) : String :=
  if successProbability < 70 ∨ 6 < metrics.complexityScore ∨ metrics.bridgeReliability < 6 then
    "HIGH"
  else if successProbability < 85 ∨ 3 < metrics.complexityScore ∨ metrics.bridgeReliability < 8 then
    "MEDIUM"
  else "LOW"

/-! ## Deduplication (`removeDuplicateRoutes`) -/

/-- Composite signature string of a route, exactly the template literal
`` `${fromChainId}-${toChainId}-${fromToken.address}-${toToken.address}-${steps.map(s => s.tool).join('-')}` ``. -/
def routeSignature (route : Route) : String :=
  String.intercalate "-"
    [toString route.fromChainId, toString route.toChainId,
     route.fromToken.address, route.toToken.address,
     String.intercalate "-" (route.steps.map RouteStep.tool)]

/-- Worker of `removeDuplicateRoutes`: the `seen` set of signature strings is
carried as a list; an element is kept iff its signature was not seen before. -/
def removeDuplicateRoutesAux (seen : List String) : List Route → List Route
  | [] => []
  | route :: rest =>
    let signature := routeSignature route
    if seen.contains signature then removeDuplicateRoutesAux seen rest
    else route :: removeDuplicateRoutesAux (signature :: seen) rest

/-- Deduplication by signature string (`removeDuplicateRoutes`). -/
def removeDuplicateRoutes (routes : List Route) : List Route :=
  removeDuplicateRoutesAux [] routes

/-! ## Failure reason analyzer (`analyzeFailureReasons`) -/

/-- The `switch (transactionData.substatus)` mapping. -/
def substatusReason (s : String) : String :=
  if s = "SLIPPAGE_EXCEEDED" then "Price moved beyond slippage tolerance during execution"
  else if s = "INSUFFICIENT_BALANCE" then "Insufficient balance to complete the transaction"
  else if s = "INSUFFICIENT_ALLOWANCE" then "Token allowance was insufficient"
  else if s = "OUT_OF_GAS" then "Transaction ran out of gas"
  else if s = "BRIDGE_NOT_AVAILABLE" then "Bridge service was unavailable"
  else "Transaction failed due to unknown reasons"

/-- Failure reason analysis (`analyzeFailureReasons`): truthiness of the two
optional strings is `≠ none` and `≠ ""`. -/
def analyzeFailureReasons (transactionData : StatusResponse) : List String :=
  let reasons :=
    (match transactionData.substatus with
     | some s => if s = "" then [] else [substatusReason s]
     | none => []) ++
    (match transactionData.substatusMessage with
     | some m => if m = "" then [] else [m]
     | none => [])
  if reasons.isEmpty then ["Transaction failed"] else reasons

/-! ## Parameter extraction and alternative configurations -/

/-- JavaScript `x || d` on an optional string: the empty string is falsy. -/
def strOr (v : Option String) (d : String) : String :=
  match v with
  | some s => if s = "" then d else s
  | none => d

/-- The included-steps fallback of `extractRouteParameters`: when the last
included step of the sending leg carries a `toToken`, it supplies the
destination chain and token address. -/
def inferDestFromSteps (sending : TransactionInfo) (baseParams : RoutesRequest) :
    RoutesRequest :=
  match sending.includedSteps with
  | some (step0 :: steps) =>
    match ((step0 :: steps).getLast (by simp)).toToken with
    | some toToken =>
      { baseParams with toChainId := some toToken.chainId, toTokenAddress := some toToken.address }
    | none => baseParams
  | _ => baseParams

/-- Parameter reconstruction (`extractRouteParameters`): `null` when the
sending leg lacks a truthy token or chain id (`!sending?.token ||
!sending?.chainId`, a chain id of `0` being falsy); a truthy receiving leg
(`receiving?.token && receiving?.chainId`) supplies the destination, else the
last included step's `toToken` is used as a hint. -/
def extractRouteParameters (transactionData : StatusResponse) : Option RoutesRequest :=
  let sending := transactionData.sending
  match sending.token, sending.chainId with
  | some token, some chainId =>
    if chainId = 0 then none
    else
      let baseParams : RoutesRequest :=
        { fromChainId := some chainId
          fromTokenAddress := some token.address
          fromAmount := some (strOr sending.amount "0")
          fromAddress := transactionData.fromAddress
          toAddress := transactionData.toAddress }
      match transactionData.receiving with
      | some receiving =>
        match receiving.token, receiving.chainId with
        | some rToken, some rChainId =>
          if rChainId = 0 then some (inferDestFromSteps sending baseParams)
          else some { baseParams with toChainId := some rChainId, toTokenAddress := some rToken.address }
        | _, _ => some (inferDestFromSteps sending baseParams)
      | none => some (inferDestFromSteps sending baseParams)
  | _, _ => none

/-- The seven request variants (`generateAlternativeConfigs`); object spread
`{...baseParams.options, …}` becomes an update of `options.getD {}`. -/
def generateAlternativeConfigs (baseParams : RoutesRequest) : List RoutesRequest :=
  let o := baseParams.options.getD {}
  let o2 := { o with slippage := some (3/100), order := some "CHEAPEST" }
  let o3 := { o with slippage := some (1/20), order := some "FASTEST" }
  let o4 := { o with slippage := some (1/50), bridges := some { prefer := some ["hop", "across", "cbridge"] } }
  let o5 := { o with slippage := some (1/50), exchanges := some { prefer := some ["1inch", "paraswap", "0x"] } }
  let o6 := { o with slippage := some (1/40), allowSwitchChain := some true }
  let o7 := { o with slippage := some (1/100), bridges := some { prefer := some ["hop", "arbitrum", "optimism", "polygon"] }, order := some "CHEAPEST" }
  [ baseParams,
    { baseParams with options := some o2 },
    { baseParams with options := some o3 },
    { baseParams with options := some o4 },
    { baseParams with options := some o5 },
    { baseParams with options := some o6 },
    { baseParams with options := some o7 } ]

/-- Best-effort original route reconstruction (`extractOriginalRoute`);
`receiving?.chainId || sending.chainId || 0` is the JavaScript falsy chain
(a chain id of 0 falls through). -/
def extractOriginalRoute (transactionData : StatusResponse) : Option PartialRoute :=
  let sending := transactionData.sending
  match sending.token with
  | none => none
  | some token =>
    some
      { id := "original"
        fromChainId := sending.chainId.getD 0
        fromAmount := strOr sending.amount "0"
        fromAmountUSD := strOr sending.amountUSD "0"
        fromToken := token
        toChainId :=
          if (transactionData.receiving.bind TransactionInfo.chainId).getD 0 ≠ 0 then
            (transactionData.receiving.bind TransactionInfo.chainId).getD 0
          else sending.chainId.getD 0
        toAmount := strOr (transactionData.receiving.bind TransactionInfo.amount) "0"
        toAmountUSD := strOr (transactionData.receiving.bind TransactionInfo.amountUSD) "0"
        toAmountMin := strOr (transactionData.receiving.bind TransactionInfo.amount) "0"
        toToken := (transactionData.receiving.bind TransactionInfo.token).getD token
        gasCostUSD := sending.gasAmountUSD
        steps := []
        fromAddress := transactionData.fromAddress
        toAddress := transactionData.toAddress }

/-- Per-route bundle built inside `fetchAlternativeRoutes` for each unique
route (the body of `uniqueRoutes.map(route => …)`). -/
def mkAlternativeRoute (uniqueRoutes : List Route) (route : Route) : AlternativeRoute :=
  let metrics := calculateRouteMetrics route
  let successProbability := calculateSuccessProbability route metrics
  let riskLevel := calculateRiskLevel metrics successProbability
  let recommendation := generateRouteRecommendation route metrics uniqueRoutes
  { route
    metrics
    recommendation := recommendation.type
    successProbability
    riskLevel
    pros := recommendation.pros
    cons := recommendation.cons }

/-- Descending optimal-score comparator of the `alternativeRoutes.sort`. -/
def altScoreGe (a b : AlternativeRoute) : Bool :=
  calculateOptimalScore b.metrics ≤ calculateOptimalScore a.metrics

/-- Comparison orchestration (`fetchAlternativeRoutes`).  The external routing
API is a parameter `fetch : RoutesRequest → List Route` that already absorbs
the per-variant failure swallowing (a failed call contributes `[]`); `null`
is `none`.  The guard `!baseParams.fromChainId || !baseParams.toChainId`
reads falsy for a missing or zero chain id. -/
def fetchAlternativeRoutes (transactionData : StatusResponse)
    (fetch : RoutesRequest → List Route) : Option RouteComparison :=
  match extractRouteParameters transactionData with
  | none => none
  | some baseParams =>
    if baseParams.fromChainId.getD 0 = 0 ∨ baseParams.toChainId.getD 0 = 0 then none
    else
      let alternatives := generateAlternativeConfigs baseParams
      let allRoutes := (alternatives.map fetch).flatten
      if allRoutes.isEmpty then
        some { originalRoute := none
               alternativeRoutes := []
               failureReasons := ["No alternative routes found"]
               recommendations := [] }
      else
        let uniqueRoutes := removeDuplicateRoutes allRoutes
        let alternativeRoutes := insertionSort altScoreGe (uniqueRoutes.map (mkAlternativeRoute uniqueRoutes))
        let failureReasons := analyzeFailureReasons transactionData
        let recommendations := alternativeRoutes.map fun r =>
          generateRouteRecommendation r.route r.metrics uniqueRoutes
        some { originalRoute := extractOriginalRoute transactionData
               alternativeRoutes
               failureReasons
               recommendations }

/-! ## Spec-side definitions (formalizations of claim wordings, for
refinement comparison against the code) -/

/-- Claim C1's category rule, taken verbatim from its wording: `CHEAPEST` if
the route has the lowest `totalFeesUSD` among all candidates; else `FASTEST`
if it has the lowest `estimatedTime`; else `SAFEST` if it has the highest
`bridgeReliability`; else `OPTIMAL` if its optimal score is ≥ every other
candidate's; else `ALTERNATIVE`. -/
def claimedCategoryC1 (route : Route) (metrics : RouteMetrics)
    (allRoutes : List Route) : RouteRecommendationType :=
  if ∀ r ∈ allRoutes, metrics.totalFeesUSD ≤ (calculateRouteMetrics r).totalFeesUSD then
    .CHEAPEST
  else if ∀ r ∈ allRoutes, metrics.estimatedTime ≤ (calculateRouteMetrics r).estimatedTime then
    .FASTEST
  else if ∀ r ∈ allRoutes, (calculateRouteMetrics r).bridgeReliability ≤ metrics.bridgeReliability then
    .SAFEST
  else if ∀ r ∈ allRoutes, r.id ≠ route.id →
      calculateOptimalScore (calculateRouteMetrics r) ≤ calculateOptimalScore metrics then
    .OPTIMAL
  else .ALTERNATIVE

/-- Amended category rule for C1: each superlative clause is keyed to the
first-encountered extremal candidate (the head of the corresponding stable
sort), matched by id. -/
def amendedCategoryC1 (route : Route) (metrics : RouteMetrics)
    (allRoutes : List Route) : RouteRecommendationType :=
  if (firstMinWith feeLe allRoutes).any (fun r => r.id == route.id) then
    .CHEAPEST
  else if (firstMinWith timeLe allRoutes).any (fun r => r.id == route.id) then
    .FASTEST
  else if (firstMinWith relGe allRoutes).any (fun r => r.id == route.id) then
    .SAFEST
  else if ∀ r ∈ allRoutes, r.id ≠ route.id →
      calculateOptimalScore (calculateRouteMetrics r) ≤ calculateOptimalScore metrics then
    .OPTIMAL
  else .ALTERNATIVE

/-- Generic first-occurrence filter: keep each element whose signature has not
occurred earlier in the list (the claimed deduplication behaviour). -/
def keepFirstBy {β : Type} [DecidableEq β] (sig : Route → β) : List Route → List Route
  | [] => []
  | r :: rs => r :: keepFirstBy sig (rs.filter fun r2 => sig r2 ≠ sig r)
termination_by l => l.length
decreasing_by
  simp only [List.length_cons]
  exact Nat.lt_succ_of_le (List.length_filter_le _ _)

/-- Amended signature-level deduplication spec for C4: first occurrence per
signature string wins. -/
def keepFirstBySig : List Route → List Route := keepFirstBy routeSignature

/-- The composite signature as claim C4 words it: the tuple of source chain
id, destination chain id, token addresses and ordered tool names. -/
def tupleSignature (route : Route) : Int × Int × String × String × List String :=
  (route.fromChainId, route.toChainId, route.fromToken.address, route.toToken.address,
   route.steps.map RouteStep.tool)

/-- Claim C4's deduplication, taken verbatim from its wording: first
occurrence per composite signature tuple wins. -/
def keepFirstByTupleSig : List Route → List Route := keepFirstBy tupleSignature

/-- Claim C7's price-impact formula, taken verbatim from its wording. -/
def claimedPriceImpactC7 (route : Route) : ℚ :=
  |route.fromAmountUSD.getD 0 - route.toAmountUSD.getD 0 -
    (calculateRouteMetrics route).totalFeesUSD| / route.fromAmountUSD.getD 0

/-! ## Concrete fixtures for counterexamples and witnesses -/

/-- A minimal token fixture. -/
def sampleToken (addr : String) : TokenInfo :=
  { address := addr, chainId := 1, symbol := "TOK", decimals := 18 }

/-- A minimal swap step fixture using the given tool. -/
def sampleStep (tool : String) : RouteStep :=
  { id := "step", type := "swap", tool
    action := { slippage := none }
    estimate := { executionDuration := 60, feeCosts := none, gasCosts := none } }

/-- A step-free route fixture with the given id; any two such routes have
identical metrics. -/
def twinRoute (i : String) : Route :=
  { id := i, fromChainId := 1, toChainId := 10
    fromToken := sampleToken "0xa", toToken := sampleToken "0xb"
    fromAmountUSD := some 100, toAmountUSD := some 100, steps := [] }

/-- Route whose single step lists a negative fee-cost USD amount. -/
def negFeeRoute : Route :=
  { twinRoute "neg" with
    steps := [{ sampleStep "uniswap" with
                estimate := { executionDuration := 60, feeCosts := some [{ amountUSD := some (-1) }], gasCosts := none } }] }

/-- Route whose single step has a 2 USD fee cost and a 1 USD gas cost. -/
def feeGasRoute : Route :=
  { twinRoute "feegas" with
    steps := [{ sampleStep "uniswap" with
                estimate := { executionDuration := 60
                              feeCosts := some [{ amountUSD := some 2 }]
                              gasCosts := some [{ amountUSD := some 1 }] } }] }

/-- Route whose `fromAmountUSD` parses to a negative number. -/
def negFromRoute : Route :=
  { twinRoute "negfrom" with fromAmountUSD := some (-1), toAmountUSD := some 0 }

/-- Route with positive `fromAmountUSD = 4` and `toAmountUSD = 3`. -/
def posFromRoute : Route :=
  { twinRoute "posfrom" with fromAmountUSD := some 4, toAmountUSD := some 3 }

/-- Two-step route with tools `a`, `b`. -/
def dashRouteA : Route :=
  { twinRoute "dashA" with steps := [sampleStep "a", sampleStep "b"] }

/-- One-step route with the single tool `a-b`; its signature string collides
with `dashRouteA` although the tool-name tuples differ. -/
def dashRouteB : Route :=
  { twinRoute "dashB" with steps := [sampleStep "a-b"] }

/-- An empty transaction leg. -/
def emptyLeg : TransactionInfo :=
  { amount := none, token := none, chainId := none, gasAmountUSD := none
    amountUSD := none, includedSteps := none }

/-- Failed transaction with substatus `INSUFFICIENT_BALANCE` and no message. -/
def failedTd : StatusResponse :=
  { sending := emptyLeg, receiving := none
    substatus := some "INSUFFICIENT_BALANCE", substatusMessage := none
    fromAddress := none, toAddress := none }

/-- Transaction whose sending and receiving legs fully determine both ends of
a route request. -/
def completeTd : StatusResponse :=
  { sending := { emptyLeg with amount := some "1000", token := some (sampleToken "0xa"), chainId := some 1 }
    receiving := some { emptyLeg with token := some (sampleToken "0xb"), chainId := some 137 }
    substatus := none, substatusMessage := none
    fromAddress := none, toAddress := none }

/-- The request parameters `extractRouteParameters` rebuilds from `completeTd`. -/
def completeParams : RoutesRequest :=
  { fromChainId := some 1, toChainId := some 137
    fromTokenAddress := some "0xa", toTokenAddress := some "0xb"
    fromAmount := some "1000", fromAddress := none, toAddress := none, options := none }

/-- A simple one-step candidate used as the constant routing-API response. -/
def wRoute : Route :=
  { twinRoute "w" with
    fromAmountUSD := some 100
    toAmountUSD := some 99
    steps := [sampleStep "uniswap"] }

/-- Routes sharing the id `x` while differing in `toAmountUSD`. -/
def sharedIdA : Route := twinRoute "x"

/-- Second route with id `x`. -/
def sharedIdB : Route := { twinRoute "x" with toAmountUSD := some 99 }

/-- Routing-API stub returning the single candidate `wRoute` for every
configuration. -/
def fetchW : RoutesRequest → List Route := fun _ => [wRoute]

/-- The comparison produced for `completeTd` against `fetchW`. -/
def comp0 : RouteComparison :=
  (fetchAlternativeRoutes completeTd fetchW).get (by with_unfolding_all decide)

/-! ## Helper lemmas -/

theorem orderedInsert_ne_nil (le : α → α → Bool) (x : α) (l : List α) :
    orderedInsert le x l ≠ [] := by
  cases l with
  | nil => simp [orderedInsert]
  | cons y ys =>
    simp only [orderedInsert]
    split <;> simp

theorem insertionSort_eq_nil_iff (le : α → α → Bool) (l : List α) :
    insertionSort le l = [] ↔ l = [] := by
  cases l with
  | nil => simp [insertionSort]
  | cons x xs =>
    simp only [insertionSort]
    exact ⟨fun h => absurd h (orderedInsert_ne_nil le x _), fun h => by simp at h⟩

theorem head?_orderedInsert (le : α → α → Bool) (x : α) (l : List α) :
    (orderedInsert le x l).head? =
      some (match l.head? with
            | none => x
            | some y => if le x y then x else y) := by
  cases l with
  | nil => simp [orderedInsert]
  | cons y ys =>
    simp only [orderedInsert, List.head?_cons]
    split <;> simp_all

theorem head?_insertionSort (le : α → α → Bool) (l : List α) :
    (insertionSort le l).head? = firstMinWith le l := by
  induction l with
  | nil => simp [insertionSort, firstMinWith]
  | cons x xs ih =>
    simp only [insertionSort, firstMinWith, head?_orderedInsert]
    rw [← ih]
    cases h : (insertionSort le xs).head? with
    | none =>
      have : insertionSort le xs = [] := by
        cases hs : insertionSort le xs with
        | nil => rfl
        | cons a t => rw [hs] at h; simp at h
      simp [this]
    | some m =>
      cases hs : insertionSort le xs with
      | nil => rw [hs] at h; simp at h
      | cons a t =>
        rw [hs] at h
        simp only [List.head?_cons, Option.some.injEq] at h
        subst h
        simp only []
        split <;> rfl

theorem mem_orderedInsert (le : α → α → Bool) (x a : α) (l : List α) :
    a ∈ orderedInsert le x l ↔ a = x ∨ a ∈ l := by
  induction l with
  | nil => simp [orderedInsert]
  | cons y ys ih =>
    simp only [orderedInsert]
    split
    · simp
    · simp only [List.mem_cons, ih]
      tauto

theorem mem_insertionSort (le : α → α → Bool) (a : α) (l : List α) :
    a ∈ insertionSort le l ↔ a ∈ l := by
  induction l with
  | nil => simp [insertionSort]
  | cons x xs ih =>
    simp only [insertionSort, mem_orderedInsert, ih, List.mem_cons]

theorem firstMinWith_mem (le : α → α → Bool) (l : List α) (m : α)
    (h : firstMinWith le l = some m) : m ∈ l := by
  induction l with
  | nil => simp [firstMinWith] at h
  | cons x xs ih =>
    simp only [firstMinWith] at h
    cases hx : firstMinWith le xs with
    | none => rw [hx] at h; simp at h; simp [h]
    | some m2 =>
      rw [hx] at h
      simp only at h
      split at h
      · simp at h; simp [h]
      · simp at h; subst h; exact List.mem_cons_of_mem _ (ih hx)

theorem generateRouteRecommendation_type (route : Route) (metrics : RouteMetrics)
    (allRoutes : List Route) :
    (generateRouteRecommendation route metrics allRoutes).type =
      amendedCategoryC1 route metrics allRoutes := by
  have hopt : (allRoutes.all fun r =>
      decide (calculateOptimalScore (calculateRouteMetrics r) ≤ calculateOptimalScore metrics) ||
        r.id == route.id) = true ↔
      ∀ r ∈ allRoutes, r.id ≠ route.id →
        calculateOptimalScore (calculateRouteMetrics r) ≤ calculateOptimalScore metrics := by
    simp only [List.all_eq_true, Bool.or_eq_true, decide_eq_true_eq, beq_iff_eq]
    constructor
    · intro h r hr hne
      rcases h r hr with h1 | h1
      · exact h1
      · exact absurd h1 hne
    · intro h r hr
      by_cases hne : r.id = route.id
      · exact Or.inr hne
      · exact Or.inl (h r hr hne)
  simp only [generateRouteRecommendation, amendedCategoryC1, head?_insertionSort]
  by_cases h1 : (firstMinWith feeLe allRoutes).any (fun r => r.id == route.id) = true
  · simp [h1]
  · simp only [Bool.not_eq_true] at h1
    by_cases h2 : (firstMinWith timeLe allRoutes).any (fun r => r.id == route.id) = true
    · simp [h1, h2]
    · simp only [Bool.not_eq_true] at h2
      by_cases h3 : (firstMinWith relGe allRoutes).any (fun r => r.id == route.id) = true
      · simp [h1, h2, h3]
      · simp only [Bool.not_eq_true] at h3
        by_cases h4 : ∀ r ∈ allRoutes, r.id ≠ route.id →
            calculateOptimalScore (calculateRouteMetrics r) ≤ calculateOptimalScore metrics
        · simp only [h1, h2, h3, hopt.mpr h4, Bool.false_eq_true, if_false, if_true,
            Bool.true_and, beq_self_eq_true]
          rw [if_pos h4]
        · have hall : (allRoutes.all fun r =>
              decide (calculateOptimalScore (calculateRouteMetrics r) ≤ calculateOptimalScore metrics) ||
                r.id == route.id) = false := by
            rw [← Bool.not_eq_true]
            exact fun hc => h4 (hopt.mp hc)
          simp only [h1, h2, h3, hall, Bool.false_eq_true, if_false, Bool.false_and]
          rw [if_neg h4]

theorem amended_eq_cheapest (route : Route) (m : RouteMetrics) (l : List Route)
    (h : amendedCategoryC1 route m l = .CHEAPEST) :
    (firstMinWith feeLe l).any (fun r => r.id == route.id) = true := by
  unfold amendedCategoryC1 at h
  split_ifs at h with c1 c2 c3 c4 <;> simp_all

theorem amended_eq_fastest (route : Route) (m : RouteMetrics) (l : List Route)
    (h : amendedCategoryC1 route m l = .FASTEST) :
    (firstMinWith timeLe l).any (fun r => r.id == route.id) = true := by
  unfold amendedCategoryC1 at h
  split_ifs at h with c1 c2 c3 c4 <;> simp_all

theorem amended_eq_safest (route : Route) (m : RouteMetrics) (l : List Route)
    (h : amendedCategoryC1 route m l = .SAFEST) :
    (firstMinWith relGe l).any (fun r => r.id == route.id) = true := by
  unfold amendedCategoryC1 at h
  split_ifs at h with c1 c2 c3 c4 <;> simp_all

theorem amended_eq_optimal (route : Route) (m : RouteMetrics) (l : List Route)
    (h : amendedCategoryC1 route m l = .OPTIMAL) :
    ∀ r ∈ l, r.id ≠ route.id →
      calculateOptimalScore (calculateRouteMetrics r) ≤ calculateOptimalScore m := by
  unfold amendedCategoryC1 at h
  split_ifs at h with c1 c2 c3 c4 <;> simp_all

theorem countP_le_of_imp {p q : Route → Bool} (l : List Route)
    (h : ∀ a ∈ l, p a = true → q a = true) : l.countP p ≤ l.countP q := by
  induction l with
  | nil => simp
  | cons a t ih =>
    have ht : t.countP p ≤ t.countP q :=
      ih fun x hx => h x (List.mem_cons_of_mem a hx)
    have ha := h a (List.mem_cons_self a t)
    simp only [List.countP_cons]
    cases hpa : p a with
    | false => simpa using Nat.le_trans ht (Nat.le_add_right _ _)
    | true => simp [ha hpa]; omega

theorem countP_id_le_one (l : List Route)
    (hl : l.Pairwise fun a b => a.id ≠ b.id) (i : String) :
    l.countP (fun r => r.id == i) ≤ 1 := by
  induction l with
  | nil => simp
  | cons a t ih =>
    rw [List.pairwise_cons] at hl
    simp only [List.countP_cons]
    cases hpa : (a.id == i) with
    | false => simpa using ih hl.2
    | true =>
      have hzero : t.countP (fun r => r.id == i) = 0 := by
        rw [List.countP_eq_zero]
        intro b hb
        have : a.id ≠ b.id := hl.1 b hb
        simp only [beq_iff_eq] at hpa ⊢
        rw [hpa] at this
        exact fun hc => this hc.symm
      simp [hzero]

theorem eq_of_mem_pairwise_id {l : List Route} {a b : Route}
    (hl : l.Pairwise fun x y => x.id ≠ y.id) (ha : a ∈ l) (hb : b ∈ l)
    (hid : a.id = b.id) : a = b := by
  induction l with
  | nil => simp at ha
  | cons x t ih =>
    rw [List.pairwise_cons] at hl
    rcases List.mem_cons.1 ha with rfl | ha2
    · rcases List.mem_cons.1 hb with rfl | hb2
      · rfl
      · exact absurd hid (hl.1 b hb2)
    · rcases List.mem_cons.1 hb with rfl | hb2
      · exact absurd hid.symm (hl.1 a ha2)
      · exact ih hl.2 ha2 hb2

theorem removeDuplicateRoutesAux_eq (seen : List String) (l : List Route) :
    removeDuplicateRoutesAux seen l =
      keepFirstBySig (l.filter fun r => !seen.contains (routeSignature r)) := by
  induction l generalizing seen with
  | nil => simp [removeDuplicateRoutesAux, keepFirstBySig, keepFirstBy]
  | cons r rs ih =>
    by_cases hs : seen.contains (routeSignature r)
    · simp only [removeDuplicateRoutesAux, hs, if_true, List.filter_cons, Bool.not_true,
        Bool.false_eq_true, ite_false]
      exact ih seen
    · have hsf : seen.contains (routeSignature r) = false := by
        simpa using hs
      simp only [removeDuplicateRoutesAux, hsf, Bool.false_eq_true, if_false, List.filter_cons,
        Bool.not_false, if_true]
      rw [ih (routeSignature r :: seen)]
      show _ = keepFirstBy routeSignature _
      rw [keepFirstBy]
      simp only [keepFirstBySig, List.cons.injEq, true_and]
      congr 1
      rw [List.filter_filter]
      apply List.filter_congr
      intro x _
      by_cases hxr : routeSignature x = routeSignature r <;>
        by_cases hxs : seen.contains (routeSignature x) = true <;>
          simp [hxr, hxs]

theorem removeDuplicateRoutes_eq_keepFirst (routes : List Route) :
    removeDuplicateRoutes routes = keepFirstBySig routes := by
  rw [removeDuplicateRoutes, removeDuplicateRoutesAux_eq]
  congr 1
  simp

theorem mem_of_mem_keepFirstBy {β : Type} [DecidableEq β] (sig : Route → β)
    {a : Route} : ∀ {l : List Route}, a ∈ keepFirstBy sig l → a ∈ l := by
  intro l
  induction l using keepFirstBy.induct sig with
  | case1 => simp [keepFirstBy]
  | case2 r rs ih =>
    rw [keepFirstBy]
    intro h
    rcases List.mem_cons.1 h with rfl | h2
    · exact List.mem_cons_self _ _
    · exact List.mem_cons_of_mem _ (List.mem_of_mem_filter (ih h2))

theorem keepFirstBy_pairwise {β : Type} [DecidableEq β] (sig : Route → β) :
    ∀ (l : List Route), (keepFirstBy sig l).Pairwise fun a b => sig a ≠ sig b := by
  intro l
  induction l using keepFirstBy.induct sig with
  | case1 => simp [keepFirstBy]
  | case2 r rs ih =>
    rw [keepFirstBy]
    rw [List.pairwise_cons]
    refine ⟨fun b hb => ?_, ih⟩
    have hbf := mem_of_mem_keepFirstBy sig hb
    have := List.of_mem_filter hbf
    simp only [decide_eq_true_eq] at this
    exact fun hc => this hc.symm

theorem keepFirstBy_of_pairwise {β : Type} [DecidableEq β] (sig : Route → β) :
    ∀ (l : List Route), (l.Pairwise fun a b => sig a ≠ sig b) →
      keepFirstBy sig l = l := by
  intro l
  induction l using keepFirstBy.induct sig with
  | case1 => simp [keepFirstBy]
  | case2 r rs ih =>
    intro h
    rw [List.pairwise_cons] at h
    rw [keepFirstBy]
    have hf : (rs.filter fun r2 => decide (sig r2 ≠ sig r)) = rs := by
      apply List.filter_eq_self.mpr
      intro b hb
      simp only [decide_eq_true_eq]
      exact fun hc => h.1 b hb hc.symm
    rw [hf] at ih ⊢
    rw [ih h.2]

theorem foldl_add_map {α : Type} (f : α → ℚ) (l : List α) (a : ℚ) :
    l.foldl (fun t s => t + f s) a = a + (l.map f).sum := by
  induction l generalizing a with
  | nil => simp
  | cons x xs ih => simp [ih, add_assoc]

theorem foldl_add2_map {α : Type} (f g : α → ℚ) (l : List α) (a : ℚ) :
    l.foldl (fun t s => t + f s + g s) a = a + (l.map fun s => f s + g s).sum := by
  induction l generalizing a with
  | nil => simp
  | cons x xs ih =>
    simp only [List.foldl_cons, List.map_cons, List.sum_cons, ih]
    ring

theorem totalFeesUSD_eq (route : Route) :
    (calculateRouteMetrics route).totalFeesUSD =
      (route.steps.map fun s => stepFeeSum s + stepGasSum s).sum := by
  simp [calculateRouteMetrics, foldl_add2_map]

theorem totalGasUSD_eq (route : Route) :
    (calculateRouteMetrics route).totalGasUSD = (route.steps.map stepGasSum).sum := by
  simp [calculateRouteMetrics, foldl_add_map]

theorem stepFeeSum_eq (step : RouteStep) :
    stepFeeSum step = ((step.estimate.feeCosts.getD []).map fun fee => fee.amountUSD.getD 0).sum := by
  simp [stepFeeSum, foldl_add_map]

theorem priceImpact_eq (route : Route) :
    (calculateRouteMetrics route).priceImpact =
      (if 0 < route.fromAmountUSD.getD 0 then
        |(route.fromAmountUSD.getD 0 - route.toAmountUSD.getD 0 -
          (calculateRouteMetrics route).totalFeesUSD) / route.fromAmountUSD.getD 0| * 100
       else 0) / 100 := rfl

/-! ## Claim theorems -/

/-- C1, counterexample: on two step-free candidates that tie on every metric,
the second one has the lowest `totalFeesUSD` of the set, so the claim demands
`CHEAPEST`, yet the code assigns `OPTIMAL` (its id is not the id of the head
of the stable fee sort). -/
theorem C1_tie_counterexample :
    (generateRouteRecommendation (twinRoute "r2") (calculateRouteMetrics (twinRoute "r2"))
        [twinRoute "r1", twinRoute "r2"]).type ≠
      claimedCategoryC1 (twinRoute "r2") (calculateRouteMetrics (twinRoute "r2"))
        [twinRoute "r1", twinRoute "r2"] ∧
    (generateRouteRecommendation (twinRoute "r2") (calculateRouteMetrics (twinRoute "r2"))
        [twinRoute "r1", twinRoute "r2"]).type = .OPTIMAL ∧
    claimedCategoryC1 (twinRoute "r2") (calculateRouteMetrics (twinRoute "r2"))
        [twinRoute "r1", twinRoute "r2"] = .CHEAPEST := by
  with_unfolding_all decide

/-- C1, amended: for every non-empty candidate set, the assigned category
follows the priority rule with each superlative clause keyed to the
first-encountered extremal route (matched by id): `CHEAPEST` for the first
route achieving minimal `totalFeesUSD`, else `FASTEST` for minimal
`estimatedTime`, else `SAFEST` for maximal `bridgeReliability`, else
`OPTIMAL` when the optimal score is ≥ every other-id candidate's score,
else `ALTERNATIVE`. -/
theorem C1_priority_rule (route : Route) (metrics : RouteMetrics)
    (allRoutes : List Route) (_hne : allRoutes ≠ []) :
    (generateRouteRecommendation route metrics allRoutes).type =
      amendedCategoryC1 route metrics allRoutes :=
  generateRouteRecommendation_type route metrics allRoutes

/-- C1, witness: the amended rule instantiated on a singleton candidate set. -/
theorem C1_priority_rule_witness :
    ([twinRoute "r1"] ≠ ([] : List Route)) ∧
    (generateRouteRecommendation (twinRoute "r1") (calculateRouteMetrics (twinRoute "r1"))
        [twinRoute "r1"]).type =
      amendedCategoryC1 (twinRoute "r1") (calculateRouteMetrics (twinRoute "r1")) [twinRoute "r1"] :=
  ⟨by simp, C1_priority_rule (twinRoute "r1") (calculateRouteMetrics (twinRoute "r1"))
    [twinRoute "r1"] (by simp)⟩

/-- C2: for every route and every metrics record, `calculateSuccessProbability`
returns a value in the closed interval [50, 98]. -/
theorem C2_successProbability_bounds (route : Route) (metrics : RouteMetrics) :
    50 ≤ calculateSuccessProbability route metrics ∧
      calculateSuccessProbability route metrics ≤ 98 := by
  unfold calculateSuccessProbability
  exact ⟨le_max_left _ _, max_le (by norm_num) (min_le_left _ _)⟩

/-- C3, counterexample: a route whose single step lists a negative fee-cost
USD amount has `totalFeesUSD = -1 < 0 = totalGasUSD`, violating the claimed
inequality. -/
theorem C3_negative_fee_counterexample :
    ¬ ((calculateRouteMetrics negFeeRoute).totalGasUSD ≤
        (calculateRouteMetrics negFeeRoute).totalFeesUSD) := by
  with_unfolding_all decide

/-- C3, amended: for every route all of whose fee-cost USD amounts parse to
non-negative values, the metrics satisfy `totalGasUSD ≤ totalFeesUSD`
(every step's gas cost is summed into both totals and the fee part is then
non-negative). -/
theorem C3_gas_le_fees (route : Route)
    (h : ∀ step ∈ route.steps, ∀ fee ∈ step.estimate.feeCosts.getD [],
      0 ≤ fee.amountUSD.getD 0) :
    (calculateRouteMetrics route).totalGasUSD ≤
      (calculateRouteMetrics route).totalFeesUSD := by
  rw [totalFeesUSD_eq, totalGasUSD_eq]
  apply List.sum_le_sum
  intro s hs
  have hfee : 0 ≤ stepFeeSum s := by
    rw [stepFeeSum_eq]
    apply List.sum_nonneg
    intro x hx
    rcases List.mem_map.1 hx with ⟨fee, hf, rfl⟩
    exact h s hs fee hf
  linarith

/-- C3, witness: the amended inequality on a route with a 2 USD fee cost and
a 1 USD gas cost. -/
theorem C3_gas_le_fees_witness :
    (∀ step ∈ feeGasRoute.steps, ∀ fee ∈ step.estimate.feeCosts.getD [],
      (0:ℚ) ≤ fee.amountUSD.getD 0) ∧
    (calculateRouteMetrics feeGasRoute).totalGasUSD ≤
      (calculateRouteMetrics feeGasRoute).totalFeesUSD :=
  ⟨by with_unfolding_all decide, C3_gas_le_fees feeGasRoute (by with_unfolding_all decide)⟩

/-- C4, counterexample: the code keys deduplication on the dash-joined
signature string, not on the claimed component tuple: tools `["a", "b"]` and
`["a-b"]` produce the same string, so the second route is dropped although its
tuple signature is fresh. -/
theorem C4_tuple_signature_counterexample :
    removeDuplicateRoutes [dashRouteA, dashRouteB] ≠
        keepFirstByTupleSig [dashRouteA, dashRouteB] ∧
      removeDuplicateRoutes [dashRouteA, dashRouteB] = [dashRouteA] ∧
      tupleSignature dashRouteA ≠ tupleSignature dashRouteB := by
  with_unfolding_all decide

/-- C4, amended: `removeDuplicateRoutes` keeps exactly the first-encountered
route for each signature *string* (the components joined with `-`, which may
conflate tuples whose components contain a dash), preserving the order of
first appearance; in particular of two routes with identical signature the
first-encountered one is retained. -/
theorem C4_dedupe_first_occurrence :
    (∀ routes : List Route, removeDuplicateRoutes routes = keepFirstBySig routes) ∧
    ∀ r1 r2 : Route, routeSignature r1 = routeSignature r2 →
      removeDuplicateRoutes [r1, r2] = [r1] := by
  refine ⟨removeDuplicateRoutes_eq_keepFirst, fun r1 r2 h => ?_⟩
  rw [removeDuplicateRoutes_eq_keepFirst]
  show keepFirstBy routeSignature _ = _
  rw [keepFirstBy]
  simp [keepFirstBy, h]

/-- C4, witness: the duplicate-signature clause instantiated on two copies of
the same route. -/
theorem C4_dedupe_first_occurrence_witness :
    removeDuplicateRoutes [sharedIdA, sharedIdA] = [sharedIdA] :=
  C4_dedupe_first_occurrence.2 sharedIdA sharedIdA rfl

/-- C5: deduplication is idempotent: deduplicating an already-deduplicated
route list leaves it unchanged. -/
theorem C5_dedupe_idempotent (routes : List Route) :
    removeDuplicateRoutes (removeDuplicateRoutes routes) = removeDuplicateRoutes routes := by
  rw [removeDuplicateRoutes_eq_keepFirst, removeDuplicateRoutes_eq_keepFirst]
  exact keepFirstBy_of_pairwise _ _ (keepFirstBy_pairwise _ _)

/-- C6: when parameter extraction succeeds (both chain ids truthy) and every
one of the 7 generated configurations yields zero candidate routes, the
comparison resolves to the valid shell: no `null`, empty `alternativeRoutes`,
exactly the single failure reason `No alternative routes found`, and empty
`recommendations`. -/
theorem C6_empty_candidates (td : StatusResponse) (fetch : RoutesRequest → List Route)
    (p : RoutesRequest) (hp : extractRouteParameters td = some p)
    (hfrom : p.fromChainId.getD 0 ≠ 0) (hto : p.toChainId.getD 0 ≠ 0)
    (hempty : ∀ cfg ∈ generateAlternativeConfigs p, fetch cfg = []) :
    (generateAlternativeConfigs p).length = 7 ∧
      fetchAlternativeRoutes td fetch =
        some { originalRoute := none, alternativeRoutes := [],
               failureReasons := ["No alternative routes found"], recommendations := [] } := by
  constructor
  · simp [generateAlternativeConfigs]
  · have hall : ((generateAlternativeConfigs p).map fetch).flatten = [] := by
      rw [List.flatten_eq_nil_iff]
      intro xs hxs
      rcases List.mem_map.1 hxs with ⟨cfg, hcfg, rfl⟩
      exact hempty cfg hcfg
    have hguard : ¬ (p.fromChainId.getD 0 = 0 ∨ p.toChainId.getD 0 = 0) :=
      not_or.mpr ⟨hfrom, hto⟩
    simp only [fetchAlternativeRoutes, hp]
    rw [if_neg hguard]
    simp [hall]

/-- C6, witness: a fully-determined transaction with a routing API that
always fails (empty responses) resolves to the shell comparison. -/
theorem C6_empty_candidates_witness :
    (generateAlternativeConfigs completeParams).length = 7 ∧
      fetchAlternativeRoutes completeTd (fun _ => []) =
        some { originalRoute := none, alternativeRoutes := [],
               failureReasons := ["No alternative routes found"], recommendations := [] } :=
  C6_empty_candidates completeTd (fun _ => []) completeParams rfl
    (by decide) (by decide) (fun _ _ => rfl)

/-- C7, counterexample: when `fromAmountUSD` parses to a negative value the
code stores a price impact of 0, while the claimed formula demands
`|from - to - fees| / from` (= -1 here), so the claim as stated fails. -/
theorem C7_negative_from_counterexample :
    (calculateRouteMetrics negFromRoute).priceImpact ≠ claimedPriceImpactC7 negFromRoute ∧
      (calculateRouteMetrics negFromRoute).priceImpact = 0 ∧
      claimedPriceImpactC7 negFromRoute = -1 := by
  with_unfolding_all decide

/-- C7, amended: for every route whose `fromAmountUSD` parses to a
non-negative value, `priceImpact` equals
`|fromAmountUSD - toAmountUSD - totalFeesUSD| / fromAmountUSD` as a decimal
fraction, and equals 0 when `fromAmountUSD` is 0 or missing. -/
theorem C7_priceImpact_formula (route : Route)
    (h : 0 ≤ route.fromAmountUSD.getD 0) :
    (calculateRouteMetrics route).priceImpact = claimedPriceImpactC7 route ∧
      (route.fromAmountUSD.getD 0 = 0 → (calculateRouteMetrics route).priceImpact = 0) := by
  rcases lt_or_eq_of_le h with hpos | hzero
  · constructor
    · rw [priceImpact_eq, if_pos hpos, claimedPriceImpactC7, abs_div, abs_of_pos hpos]
      exact mul_div_cancel_right₀ _ (by norm_num)
    · intro h0
      rw [h0] at hpos
      exact absurd hpos (lt_irrefl 0)
  · have h0 : route.fromAmountUSD.getD 0 = 0 := hzero.symm
    have hnotpos : ¬ (0 < route.fromAmountUSD.getD 0) := by rw [h0]; exact lt_irrefl 0
    constructor
    · rw [priceImpact_eq, if_neg hnotpos, claimedPriceImpactC7, h0]
      simp
    · intro
      rw [priceImpact_eq, if_neg hnotpos]
      simp

/-- C7, witness: the amended formula on a route with `fromAmountUSD = 4`,
`toAmountUSD = 3` and no fees. -/
theorem C7_priceImpact_formula_witness :
    ((0:ℚ) ≤ posFromRoute.fromAmountUSD.getD 0) ∧
      (calculateRouteMetrics posFromRoute).priceImpact = claimedPriceImpactC7 posFromRoute :=
  ⟨by decide, (C7_priceImpact_formula posFromRoute (by decide)).1⟩

theorem count_label_le_one (allRoutes : List Route)
    (hids : allRoutes.Pairwise fun a b => a.id ≠ b.id)
    (cmp : Route → Route → Bool) (L : RouteRecommendationType)
    (hchar : ∀ r ∈ allRoutes,
      (generateRouteRecommendation r (calculateRouteMetrics r) allRoutes).type = L →
      (firstMinWith cmp allRoutes).any (fun x => x.id == r.id) = true) :
    (allRoutes.countP fun r =>
      (generateRouteRecommendation r (calculateRouteMetrics r) allRoutes).type == L) ≤ 1 := by
  cases hm : firstMinWith cmp allRoutes with
  | none =>
    have hzero : (allRoutes.countP fun r =>
        (generateRouteRecommendation r (calculateRouteMetrics r) allRoutes).type == L) = 0 := by
      rw [List.countP_eq_zero]
      intro r hr hc
      simp only [beq_iff_eq] at hc
      have := hchar r hr hc
      rw [hm] at this
      simp [Option.any] at this
    simp [hzero]
  | some m =>
    have himp : ∀ r ∈ allRoutes,
        ((generateRouteRecommendation r (calculateRouteMetrics r) allRoutes).type == L) = true →
        (r.id == m.id) = true := by
      intro r hr hc
      simp only [beq_iff_eq] at hc ⊢
      have := hchar r hr hc
      rw [hm] at this
      simp only [Option.any, beq_iff_eq] at this
      exact this.symm
    exact Nat.le_trans (countP_le_of_imp allRoutes himp) (countP_id_le_one allRoutes hids m.id)

/-- C8, counterexample: two distinct routes that share an id are both labeled
`CHEAPEST` against the same candidate set, so the at-most-one claim fails for
arbitrary candidate sets. -/
theorem C8_shared_id_counterexample :
    sharedIdA ≠ sharedIdB ∧
      (List.countP (fun r => (generateRouteRecommendation r (calculateRouteMetrics r)
          [sharedIdA, sharedIdB]).type == RouteRecommendationType.CHEAPEST)
        [sharedIdA, sharedIdB]) = 2 := by
  with_unfolding_all decide

/-- C8, amended: provided the candidate routes carry pairwise-distinct ids,
at most one route of the set is labeled `CHEAPEST`, at most one `FASTEST`,
and at most one `SAFEST`; and any routes labeled `OPTIMAL` are literally tied
at the top optimal score of the set. -/
theorem C8_label_uniqueness (allRoutes : List Route)
    (hids : allRoutes.Pairwise fun a b => a.id ≠ b.id) :
    (allRoutes.countP fun r =>
      (generateRouteRecommendation r (calculateRouteMetrics r) allRoutes).type == .CHEAPEST) ≤ 1 ∧
    (allRoutes.countP fun r =>
      (generateRouteRecommendation r (calculateRouteMetrics r) allRoutes).type == .FASTEST) ≤ 1 ∧
    (allRoutes.countP fun r =>
      (generateRouteRecommendation r (calculateRouteMetrics r) allRoutes).type == .SAFEST) ≤ 1 ∧
    ∀ r1 ∈ allRoutes, ∀ r2 ∈ allRoutes,
      (generateRouteRecommendation r1 (calculateRouteMetrics r1) allRoutes).type = .OPTIMAL →
      (generateRouteRecommendation r2 (calculateRouteMetrics r2) allRoutes).type = .OPTIMAL →
      calculateOptimalScore (calculateRouteMetrics r1) =
          calculateOptimalScore (calculateRouteMetrics r2) ∧
        ∀ r ∈ allRoutes, calculateOptimalScore (calculateRouteMetrics r) ≤
          calculateOptimalScore (calculateRouteMetrics r1) := by
  have hall : ∀ r ∈ allRoutes,
      (generateRouteRecommendation r (calculateRouteMetrics r) allRoutes).type = .OPTIMAL →
      ∀ x ∈ allRoutes, calculateOptimalScore (calculateRouteMetrics x) ≤
        calculateOptimalScore (calculateRouteMetrics r) := by
    intro r hr hopt x hx
    have hforall := amended_eq_optimal r (calculateRouteMetrics r) allRoutes
      (by rw [← generateRouteRecommendation_type]; exact hopt)
    by_cases hid : x.id = r.id
    · rw [eq_of_mem_pairwise_id hids hx hr hid]
    · exact hforall x hx hid
  refine ⟨?_, ?_, ?_, ?_⟩
  · exact count_label_le_one allRoutes hids feeLe .CHEAPEST fun r hr hc =>
      amended_eq_cheapest r (calculateRouteMetrics r) allRoutes
        (by rw [← generateRouteRecommendation_type]; exact hc)
  · exact count_label_le_one allRoutes hids timeLe .FASTEST fun r hr hc =>
      amended_eq_fastest r (calculateRouteMetrics r) allRoutes
        (by rw [← generateRouteRecommendation_type]; exact hc)
  · exact count_label_le_one allRoutes hids relGe .SAFEST fun r hr hc =>
      amended_eq_safest r (calculateRouteMetrics r) allRoutes
        (by rw [← generateRouteRecommendation_type]; exact hc)
  · intro r1 h1 r2 h2 ho1 ho2
    exact ⟨le_antisymm (hall r2 h2 ho2 r1 h1) (hall r1 h1 ho1 r2 h2), hall r1 h1 ho1⟩

/-- C8, witness: the amended uniqueness instantiated on two candidates with
distinct ids. -/
theorem C8_label_uniqueness_witness :
    (List.countP (fun r => (generateRouteRecommendation r (calculateRouteMetrics r)
        [twinRoute "w1", twinRoute "w2"]).type == RouteRecommendationType.CHEAPEST)
      [twinRoute "w1", twinRoute "w2"]) ≤ 1 :=
  (C8_label_uniqueness [twinRoute "w1", twinRoute "w2"] (by decide)).1

/-- C9: `analyzeFailureReasons` maps a truthy substatus through the fixed
sentence table (unknown values to the generic unknown-reasons sentence),
appends the free-text message when truthy, and yields exactly
`["Transaction failed"]` when neither is truthy — so the result is never
empty; in particular `INSUFFICIENT_BALANCE` with no message yields exactly
the insufficient-balance sentence. -/
theorem C9_failure_reasons (td : StatusResponse) :
    analyzeFailureReasons td ≠ [] ∧
    ((td.substatus = none ∨ td.substatus = some "") →
      (td.substatusMessage = none ∨ td.substatusMessage = some "") →
      analyzeFailureReasons td = ["Transaction failed"]) ∧
    (∀ s, td.substatus = some s → s ≠ "" →
      (td.substatusMessage = none ∨ td.substatusMessage = some "") →
      analyzeFailureReasons td = [substatusReason s]) ∧
    (∀ s m, td.substatus = some s → s ≠ "" → td.substatusMessage = some m → m ≠ "" →
      analyzeFailureReasons td = [substatusReason s, m]) ∧
    (∀ m, (td.substatus = none ∨ td.substatus = some "") → td.substatusMessage = some m →
      m ≠ "" → analyzeFailureReasons td = [m]) ∧
    (∀ s, s ∉ (["SLIPPAGE_EXCEEDED", "INSUFFICIENT_BALANCE", "INSUFFICIENT_ALLOWANCE",
        "OUT_OF_GAS", "BRIDGE_NOT_AVAILABLE"] : List String) →
      substatusReason s = "Transaction failed due to unknown reasons") ∧
    (td.substatus = some "INSUFFICIENT_BALANCE" → td.substatusMessage = none →
      analyzeFailureReasons td = ["Insufficient balance to complete the transaction"]) := by
  refine ⟨?_, ?_, ?_, ?_, ?_, ?_, ?_⟩
  · cases hsub : td.substatus <;> cases hmsg : td.substatusMessage <;>
      simp only [analyzeFailureReasons, hsub, hmsg] <;> split_ifs <;> simp_all
  · intro h1 h2
    rcases h1 with h1 | h1 <;> rcases h2 with h2 | h2 <;> simp [analyzeFailureReasons, h1, h2]
  · intro s hs hsne h2
    rcases h2 with h2 | h2 <;> simp [analyzeFailureReasons, hs, hsne, h2]
  · intro s m hs hsne hm hmne
    simp [analyzeFailureReasons, hs, hsne, hm, hmne]
  · intro m h1 hm hmne
    rcases h1 with h1 | h1 <;> simp [analyzeFailureReasons, h1, hm, hmne]
  · intro s hs
    simp only [List.mem_cons, List.not_mem_nil, or_false, not_or] at hs
    obtain ⟨h1, h2, h3, h4, h5⟩ := hs
    simp [substatusReason, h1, h2, h3, h4, h5]
  · intro hs hm
    simp [analyzeFailureReasons, hs, hm, substatusReason]

/-- C9, witness: the insufficient-balance scenario instantiated on a concrete
failed transaction. -/
theorem C9_failure_reasons_witness :
    analyzeFailureReasons failedTd = ["Insufficient balance to complete the transaction"] :=
  (C9_failure_reasons failedTd).2.2.2.2.2.2 rfl rfl

theorem mkAlternativeRoute_spec (uniq : List Route) (a : AlternativeRoute)
    (ha : a ∈ uniq.map (mkAlternativeRoute uniq)) :
    (generateRouteRecommendation a.route a.metrics uniq).type = a.recommendation ∧
    (generateRouteRecommendation a.route a.metrics uniq).pros = a.pros ∧
    (generateRouteRecommendation a.route a.metrics uniq).cons = a.cons := by
  rcases List.mem_map.1 ha with ⟨r, _, rfl⟩
  simp [mkAlternativeRoute]

/-- C10: a non-null comparison with at least one candidate has its
`recommendations` index-aligned with `alternativeRoutes`: equal lengths, and
at every index the re-generated recommendation's `type`, `pros` and `cons`
equal the fields stored in the alternative-route entry, because the
deterministic `generateRouteRecommendation` is re-invoked with identical
arguments after the score sort. -/
theorem C10_recommendations_aligned (td : StatusResponse)
    (fetch : RoutesRequest → List Route) (comp : RouteComparison)
    (hc : fetchAlternativeRoutes td fetch = some comp)
    (hne : comp.alternativeRoutes ≠ []) :
    comp.recommendations.length = comp.alternativeRoutes.length ∧
    ∀ (i : Nat) (hi : i < comp.alternativeRoutes.length)
      (hj : i < comp.recommendations.length),
      (comp.recommendations.get ⟨i, hj⟩).type =
          (comp.alternativeRoutes.get ⟨i, hi⟩).recommendation ∧
        (comp.recommendations.get ⟨i, hj⟩).pros =
          (comp.alternativeRoutes.get ⟨i, hi⟩).pros ∧
        (comp.recommendations.get ⟨i, hj⟩).cons =
          (comp.alternativeRoutes.get ⟨i, hi⟩).cons := by
  cases hep : extractRouteParameters td with
  | none =>
    simp only [fetchAlternativeRoutes, hep] at hc
    exact absurd hc (by simp)
  | some bp =>
    simp only [fetchAlternativeRoutes, hep] at hc
    by_cases hguard : bp.fromChainId.getD 0 = 0 ∨ bp.toChainId.getD 0 = 0
    · rw [if_pos hguard] at hc
      simp at hc
    · rw [if_neg hguard] at hc
      by_cases hempty :
          (((generateAlternativeConfigs bp).map fetch).flatten).isEmpty = true
      · rw [if_pos hempty] at hc
        simp only [Option.some.injEq] at hc
        rw [← hc] at hne
        simp at hne
      · rw [if_neg hempty] at hc
        simp only [Option.some.injEq] at hc
        subst hc
        constructor
        · simp
        · intro i hi hj
          simp only [List.get_eq_getElem, List.getElem_map] at hi hj ⊢
          apply mkAlternativeRoute_spec
          exact (mem_insertionSort _ _ _).1 (List.getElem_mem _)

/-- C10, witness: the alignment instantiated on a concrete comparison with a
single candidate route. -/
theorem C10_recommendations_aligned_witness :
    comp0.recommendations.length = comp0.alternativeRoutes.length ∧
    ∀ (i : Nat) (hi : i < comp0.alternativeRoutes.length)
      (hj : i < comp0.recommendations.length),
      (comp0.recommendations.get ⟨i, hj⟩).type =
          (comp0.alternativeRoutes.get ⟨i, hi⟩).recommendation ∧
        (comp0.recommendations.get ⟨i, hj⟩).pros =
          (comp0.alternativeRoutes.get ⟨i, hi⟩).pros ∧
        (comp0.recommendations.get ⟨i, hj⟩).cons =
          (comp0.alternativeRoutes.get ⟨i, hi⟩).cons :=
  C10_recommendations_aligned completeTd fetchW comp0 (Option.some_get _).symm
    (by with_unfolding_all decide)

end LifiLens
